import Mathlib

/-!
Shallow embedding of the kernel-dispatch layer
`src/mpc_solver/navi_test/icasadi_navi_test/extern/interface.c`
(the CasADi/OpEn interface for the `navi_test` optimizer).

Memory regions (`uxip_space`, the caller buffers, the scratch arenas) are
modelled as total functions `Nat → α` over an abstract element type `α`
standing for `casadi_real`; a C pointer into a buffer is a `Nat` offset.
The four generated kernels (`auto_casadi_cost.c` etc.) are not part of the
shown sources; they are modelled abstractly from their `extern` declarations
and from the spec (see `Kernel3` / `Kernel2` below).
-/

namespace NaviTest

/-- Number of input variables (`#define NU_NAVI_TEST 40`). -/
def NU_NAVI_TEST : Nat := 40

/-- Number of static parameters (`#define NP_NAVI_TEST 2673`). -/
def NP_NAVI_TEST : Nat := 2673

/-- Dimension of F1, the number of ALM constraints (`#define N1_NAVI_TEST 40`). -/
def N1_NAVI_TEST : Nat := 40

/-- Dimension of F2, the number of PM constraints (`#define N2_NAVI_TEST 15`). -/
def N2_NAVI_TEST : Nat := 15

/-- Dimension of `xi = (c, y)` (`#define NXI_NAVI_TEST 41`). -/
def NXI_NAVI_TEST : Nat := 41

/-- The `parameters` entry of the metadata header comment of `interface.c`
(`+ parameters: 2658`). -/
def metadata_parameters : Nat := 2658

/-- Declared element count of the static buffer
`uxip_space[NU_NAVI_TEST + NXI_NAVI_TEST + NP_NAVI_TEST]`. -/
def UXIP_SPACE_SIZE : Nat := NU_NAVI_TEST + NXI_NAVI_TEST + NP_NAVI_TEST

variable {α : Type}

/-- One C copy loop `for (i = 0; i < n; i++) ws[off + i] = src[i];`
acting on a store `ws : Nat → α`. -/
def copy_loop (off n : Nat) (src : Nat → α) (ws : Nat → α) : Nat → α :=
  (List.range n).foldl (fun w i => Function.update w (off + i) (src i)) ws

theorem copy_loop_zero (off : Nat) (src ws : Nat → α) :
    copy_loop off 0 src ws = ws := rfl

theorem copy_loop_succ (off n : Nat) (src ws : Nat → α) :
    copy_loop off (n + 1) src ws =
      Function.update (copy_loop off n src ws) (off + n) (src n) := by
  unfold copy_loop
  rw [List.range_succ, List.foldl_append]
  rfl

/-- A copy loop leaves every cell outside `[off, off + n)` unchanged. -/
theorem copy_loop_outside {off n j : Nat} (src ws : Nat → α)
    (h : j < off ∨ off + n ≤ j) : copy_loop off n src ws j = ws j := by
  induction n with
  | zero => rfl
  | succ n ih =>
    rw [copy_loop_succ, Function.update_noteq (by omega)]
    exact ih (by omega)

/-- A copy loop writes `src i` into cell `off + i` for every `i < n`. -/
theorem copy_loop_inside {off n i : Nat} (src ws : Nat → α)
    (h : i < n) : copy_loop off n src ws (off + i) = src i := by
  induction n with
  | zero => omega
  | succ n ih =>
    rw [copy_loop_succ]
    by_cases hi : i = n
    · subst hi; simp
    · rw [Function.update_noteq (by omega)]
      exact ih (by omega)

/-- The full pack routine `copy_args_into_uxip_space`:
`arg = {u, xi, p}`; copies `u` into `[0, NU)`, `xi` into `[NU, NU+NXI)` and
`p` into `[NU+NXI, NU+NXI+NP)` of the workspace, loop by loop in that order. -/
def copy_args_into_uxip_space (arg : Fin 3 → Nat → α) (ws : Nat → α) : Nat → α :=
  copy_loop (NU_NAVI_TEST + NXI_NAVI_TEST) NP_NAVI_TEST (arg 2)
    (copy_loop NU_NAVI_TEST NXI_NAVI_TEST (arg 1)
      (copy_loop 0 NU_NAVI_TEST (arg 0) ws))

/-- The reduced pack routine `copy_args_into_up_space`:
`arg = {u, p}`; copies `u` into `[0, NU)` and `p` into `[NU+NXI, NU+NXI+NP)`,
skipping the `xi` region. -/
def copy_args_into_up_space (arg : Fin 2 → Nat → α) (ws : Nat → α) : Nat → α :=
  copy_loop (NU_NAVI_TEST + NXI_NAVI_TEST) NP_NAVI_TEST (arg 1)
    (copy_loop 0 NU_NAVI_TEST (arg 0) ws)

theorem full_pack_u {j : Nat} (arg : Fin 3 → Nat → α) (ws : Nat → α)
    (h : j < NU_NAVI_TEST) : copy_args_into_uxip_space arg ws j = arg 0 j := by
  unfold copy_args_into_uxip_space
  rw [copy_loop_outside _ _ (Or.inl (by omega)),
    copy_loop_outside _ _ (Or.inl h)]
  have h2 := @copy_loop_inside α 0 NU_NAVI_TEST j (arg 0) ws h
  simpa using h2

theorem full_pack_xi {j : Nat} (arg : Fin 3 → Nat → α) (ws : Nat → α)
    (h1 : NU_NAVI_TEST ≤ j) (h2 : j < NU_NAVI_TEST + NXI_NAVI_TEST) :
    copy_args_into_uxip_space arg ws j = arg 1 (j - NU_NAVI_TEST) := by
  unfold copy_args_into_uxip_space
  rw [copy_loop_outside _ _ (Or.inl h2)]
  have hj : j = NU_NAVI_TEST + (j - NU_NAVI_TEST) := by omega
  conv_lhs => rw [hj]
  exact copy_loop_inside _ _ (by omega)

theorem full_pack_p {j : Nat} (arg : Fin 3 → Nat → α) (ws : Nat → α)
    (h1 : NU_NAVI_TEST + NXI_NAVI_TEST ≤ j)
    (h2 : j < NU_NAVI_TEST + NXI_NAVI_TEST + NP_NAVI_TEST) :
    copy_args_into_uxip_space arg ws j =
      arg 2 (j - (NU_NAVI_TEST + NXI_NAVI_TEST)) := by
  unfold copy_args_into_uxip_space
  have hj : j = (NU_NAVI_TEST + NXI_NAVI_TEST) +
      (j - (NU_NAVI_TEST + NXI_NAVI_TEST)) := by omega
  conv_lhs => rw [hj]
  exact copy_loop_inside _ _ (by omega)

theorem full_pack_frame {j : Nat} (arg : Fin 3 → Nat → α) (ws : Nat → α)
    (h : NU_NAVI_TEST + NXI_NAVI_TEST + NP_NAVI_TEST ≤ j) :
    copy_args_into_uxip_space arg ws j = ws j := by
  unfold copy_args_into_uxip_space
  rw [copy_loop_outside _ _ (Or.inr (by omega)),
    copy_loop_outside _ _ (Or.inr (by omega)),
    copy_loop_outside _ _ (Or.inr (by omega))]

theorem up_pack_u {j : Nat} (arg : Fin 2 → Nat → α) (ws : Nat → α)
    (h : j < NU_NAVI_TEST) : copy_args_into_up_space arg ws j = arg 0 j := by
  unfold copy_args_into_up_space
  rw [copy_loop_outside _ _ (Or.inl (by omega))]
  have h2 := @copy_loop_inside α 0 NU_NAVI_TEST j (arg 0) ws h
  simpa using h2

theorem up_pack_xi {j : Nat} (arg : Fin 2 → Nat → α) (ws : Nat → α)
    (h1 : NU_NAVI_TEST ≤ j) (h2 : j < NU_NAVI_TEST + NXI_NAVI_TEST) :
    copy_args_into_up_space arg ws j = ws j := by
  unfold copy_args_into_up_space
  rw [copy_loop_outside _ _ (Or.inl h2), copy_loop_outside _ _ (Or.inr h1)]

theorem up_pack_p {j : Nat} (arg : Fin 2 → Nat → α) (ws : Nat → α)
    (h1 : NU_NAVI_TEST + NXI_NAVI_TEST ≤ j)
    (h2 : j < NU_NAVI_TEST + NXI_NAVI_TEST + NP_NAVI_TEST) :
    copy_args_into_up_space arg ws j =
      arg 1 (j - (NU_NAVI_TEST + NXI_NAVI_TEST)) := by
  unfold copy_args_into_up_space
  have hj : j = (NU_NAVI_TEST + NXI_NAVI_TEST) +
      (j - (NU_NAVI_TEST + NXI_NAVI_TEST)) := by omega
  conv_lhs => rw [hj]
  exact copy_loop_inside _ _ (by omega)

theorem up_pack_frame {j : Nat} (arg : Fin 2 → Nat → α) (ws : Nat → α)
    (h : NU_NAVI_TEST + NXI_NAVI_TEST + NP_NAVI_TEST ≤ j) :
    copy_args_into_up_space arg ws j = ws j := by
  unfold copy_args_into_up_space
  rw [copy_loop_outside _ _ (Or.inr (by omega)),
    copy_loop_outside _ _ (Or.inr (by omega))]

/-- What a kernel invocation leaves behind at the caller boundary: the
contents written through the result slot into the caller's output buffer,
and the kernel's integer return code. -/
structure KernelReturn (α : Type) where
  out : Nat → α
  status : Int

/-- Modelled from the spec: a three-argument CasADi kernel
(`open_phi_navi_test` / `open_grad_phi_navi_test`, implemented in
`auto_casadi_cost.c` / `auto_casadi_grad.c`, which are not among the shown
sources). Its `extern` declaration in `interface.c` fixes the call shape
`(arg, res, iw, w, mem) → int`; the spec states that a kernel reads exactly
its declared argument regions (`u`, `xi`, `p` of lengths `NU`, `NXI`, `NP`),
writes its output through the result slot, returns an integer status, and
uses its scratch arenas only as working memory (outputs do not depend on
incoming scratch contents). `eval` takes the three argument views and the
auxiliary-memory handle; `scrI` / `scrR` give the integer / real scratch
contents it leaves behind. -/
structure Kernel3 (α : Type) where
  eval : (Fin NU_NAVI_TEST → α) → (Fin NXI_NAVI_TEST → α) →
    (Fin NP_NAVI_TEST → α) → Option Unit → KernelReturn α
  scrI : (Fin NU_NAVI_TEST → α) → (Fin NXI_NAVI_TEST → α) →
    (Fin NP_NAVI_TEST → α) → (Nat → Int) → Nat → Int
  scrR : (Fin NU_NAVI_TEST → α) → (Fin NXI_NAVI_TEST → α) →
    (Fin NP_NAVI_TEST → α) → (Nat → α) → Nat → α

/-- Modelled from the spec: a two-argument CasADi kernel
(`open_mapping_f1_navi_test` / `open_mapping_f2_navi_test`, implemented in
`auto_casadi_mapping_f1.c` / `auto_casadi_mapping_f2.c`, not among the shown
sources). It reads exactly its declared argument regions (`u`, `p`). -/
structure Kernel2 (α : Type) where
  eval : (Fin NU_NAVI_TEST → α) → (Fin NP_NAVI_TEST → α) →
    Option Unit → KernelReturn α
  scrI : (Fin NU_NAVI_TEST → α) → (Fin NP_NAVI_TEST → α) →
    (Nat → Int) → Nat → Int
  scrR : (Fin NU_NAVI_TEST → α) → (Fin NP_NAVI_TEST → α) →
    (Nat → α) → Nat → α

/-- Dereference a base pointer `ws + off` as an argument vector of the
declared length `n`: element `i` is `ws[off + i]`. -/
def view (ws : Nat → α) (off n : Nat) : Fin n → α :=
  fun i => ws (off + i.1)

/-- The mutable file-scope state of `interface.c`: the packed workspace
`uxip_space` and the four kernels' dedicated integer / real scratch arenas
(`allocated_i_workspace_cost`, `allocated_r_workspace_cost`, … for grad, f1,
f2). The result-slot arrays hold a caller pointer only for the duration of
one call and are not observable across calls. -/
structure IState (α : Type) where
  uxip_space : Nat → α
  iw_cost : Nat → Int
  w_cost : Nat → α
  iw_grad : Nat → Int
  w_grad : Nat → α
  iw_f1 : Nat → Int
  w_f1 : Nat → α
  iw_f2 : Nat → Int
  w_f2 : Nat → α

/-- Mirrors the conditional scratch-arena allocation pattern of
`interface.c`: `#if SZ > 0 static T buf[SZ]; #else static T *buf = NULL;`
where the size macro `SZ` is supplied by the build. A C static array is
zero-initialized, so a positive size yields `sz` copies of the zero value
`z`; a zero size yields the null pointer, `none`. -/
def allocated_workspace (z : α) (sz : Nat) : Option (List α) :=
  if 0 < sz then some (List.replicate sz z) else none

/-- Dispatch function `cost_function_navi_test(arg, res)`:
builds the argument view `args__ = {uxip_space, uxip_space + NU,
uxip_space + NU + NXI}`, packs `arg = {u, xi, p}` with
`copy_args_into_uxip_space`, binds `result_space_cost[0] = res[0]`, and
returns `open_phi_navi_test(args__, result_space_cost,
allocated_i_workspace_cost, allocated_r_workspace_cost, (void*)0)`.
The second component of the result is what the invocation hands back
through the caller's output buffer and as the return code. -/
def cost_function_navi_test (κ : Kernel3 α) (arg : Fin 3 → Nat → α)
    (s : IState α) : IState α × KernelReturn α :=
  let ws := copy_args_into_uxip_space arg s.uxip_space
  let u := view ws 0 NU_NAVI_TEST
  let xi := view ws NU_NAVI_TEST NXI_NAVI_TEST
  let p := view ws (NU_NAVI_TEST + NXI_NAVI_TEST) NP_NAVI_TEST
  ({ s with uxip_space := ws,
            iw_cost := κ.scrI u xi p s.iw_cost,
            w_cost := κ.scrR u xi p s.w_cost },
   κ.eval u xi p none)

/-- Dispatch function `grad_cost_function_navi_test(arg, res)`: same shape
as the cost dispatch, invoking `open_grad_phi_navi_test` with the grad
scratch arenas. -/
def grad_cost_function_navi_test (κ : Kernel3 α) (arg : Fin 3 → Nat → α)
    (s : IState α) : IState α × KernelReturn α :=
  let ws := copy_args_into_uxip_space arg s.uxip_space
  let u := view ws 0 NU_NAVI_TEST
  let xi := view ws NU_NAVI_TEST NXI_NAVI_TEST
  let p := view ws (NU_NAVI_TEST + NXI_NAVI_TEST) NP_NAVI_TEST
  ({ s with uxip_space := ws,
            iw_grad := κ.scrI u xi p s.iw_grad,
            w_grad := κ.scrR u xi p s.w_grad },
   κ.eval u xi p none)

/-- Dispatch function `mapping_f1_function_navi_test(arg, res)`:
builds `args__ = {uxip_space, uxip_space + NU + NXI}`, packs `arg = {u, p}`
with `copy_args_into_up_space`, binds `result_space_f1[0] = res[0]`, and
returns `open_mapping_f1_navi_test(args__, result_space_f1,
allocated_i_workspace_f1, allocated_r_workspace_f1, (void*)0)`. -/
def mapping_f1_function_navi_test (κ : Kernel2 α) (arg : Fin 2 → Nat → α)
    (s : IState α) : IState α × KernelReturn α :=
  let ws := copy_args_into_up_space arg s.uxip_space
  let u := view ws 0 NU_NAVI_TEST
  let p := view ws (NU_NAVI_TEST + NXI_NAVI_TEST) NP_NAVI_TEST
  ({ s with uxip_space := ws,
            iw_f1 := κ.scrI u p s.iw_f1,
            w_f1 := κ.scrR u p s.w_f1 },
   κ.eval u p none)

/-- Dispatch function `mapping_f2_function_navi_test(arg, res)`: same shape
as the F1 dispatch, invoking `open_mapping_f2_navi_test` with the f2
scratch arenas. -/
def mapping_f2_function_navi_test (κ : Kernel2 α) (arg : Fin 2 → Nat → α)
    (s : IState α) : IState α × KernelReturn α :=
  let ws := copy_args_into_up_space arg s.uxip_space
  let u := view ws 0 NU_NAVI_TEST
  let p := view ws (NU_NAVI_TEST + NXI_NAVI_TEST) NP_NAVI_TEST
  ({ s with uxip_space := ws,
            iw_f2 := κ.scrI u p s.iw_f2,
            w_f2 := κ.scrR u p s.w_f2 },
   κ.eval u p none)

/-- One C copy loop at the level of a single flat memory
`for (i = 0; i < n; i++) mem[dst + i] = mem[src + i];` — each iteration
reads the current memory, as the C loop does. -/
def heap_copy_loop (dst src n : Nat) (mem : Nat → α) : Nat → α :=
  (List.range n).foldl (fun m i => Function.update m (dst + i) (m (src + i))) mem

theorem heap_copy_loop_succ (dst src n : Nat) (mem : Nat → α) :
    heap_copy_loop dst src (n + 1) mem =
      Function.update (heap_copy_loop dst src n mem) (dst + n)
        (heap_copy_loop dst src n mem (src + n)) := by
  unfold heap_copy_loop
  rw [List.range_succ, List.foldl_append]
  rfl

/-- A heap-level copy loop writes only into `[dst, dst + n)`. -/
theorem heap_copy_loop_outside {dst n a : Nat} (src : Nat) (mem : Nat → α)
    (h : a < dst ∨ dst + n ≤ a) : heap_copy_loop dst src n mem a = mem a := by
  induction n with
  | zero => rfl
  | succ n ih =>
    rw [heap_copy_loop_succ, Function.update_noteq (by omega)]
    exact ih (by omega)

/-- Heap-level `copy_args_into_uxip_space`: the workspace `uxip_space` lives
at base address `base` of a flat memory `mem`, and `argp k` is the base
address of the caller's `arg[k]` buffer (`argp 0 = u`, `argp 1 = xi`,
`argp 2 = p`). -/
def copy_args_into_uxip_space_heap (base : Nat) (argp : Fin 3 → Nat)
    (mem : Nat → α) : Nat → α :=
  heap_copy_loop (base + (NU_NAVI_TEST + NXI_NAVI_TEST)) (argp 2) NP_NAVI_TEST
    (heap_copy_loop (base + NU_NAVI_TEST) (argp 1) NXI_NAVI_TEST
      (heap_copy_loop base (argp 0) NU_NAVI_TEST mem))

/-- Heap-level `copy_args_into_up_space` (`argp 0 = u`, `argp 1 = p`). -/
def copy_args_into_up_space_heap (base : Nat) (argp : Fin 2 → Nat)
    (mem : Nat → α) : Nat → α :=
  heap_copy_loop (base + (NU_NAVI_TEST + NXI_NAVI_TEST)) (argp 1) NP_NAVI_TEST
    (heap_copy_loop base (argp 0) NU_NAVI_TEST mem)

/-- Concrete three-argument input used to exercise the pack routines:
`u`, `xi`, `p` hold distinguishable values. -/
def wArg3 : Fin 3 → Nat → Int := fun k i => (k.1 : Int) * 10000 + i

/-- Concrete two-argument input (`u`, `p`) for the reduced pack routine. -/
def wArg2 : Fin 2 → Nat → Int := fun k i => (k.1 : Int) * 10000 + i

/-- Concrete prior workspace contents, distinguishable from the inputs. -/
def wWs : Nat → Int := fun j => -(j : Int)

/-- C1: after `copy_args_into_uxip_space({u, xi, p})` runs (with
`Nu = 40`, `Nxi = 41`, `Np = 2673`), the workspace slice `[0, Nu)` equals
`u`, `[Nu, Nu+Nxi)` equals `xi`, `[Nu+Nxi, Nu+Nxi+Np)` equals `p`
element-wise, and every other workspace element keeps its prior value. -/
theorem claim_C1_full_pack_correct (arg : Fin 3 → Nat → α) (ws : Nat → α)
    (j : Nat) :
    NU_NAVI_TEST = 40 ∧ NXI_NAVI_TEST = 41 ∧ NP_NAVI_TEST = 2673 ∧
    (j < NU_NAVI_TEST → copy_args_into_uxip_space arg ws j = arg 0 j) ∧
    (NU_NAVI_TEST ≤ j → j < NU_NAVI_TEST + NXI_NAVI_TEST →
      copy_args_into_uxip_space arg ws j = arg 1 (j - NU_NAVI_TEST)) ∧
    (NU_NAVI_TEST + NXI_NAVI_TEST ≤ j →
      j < NU_NAVI_TEST + NXI_NAVI_TEST + NP_NAVI_TEST →
      copy_args_into_uxip_space arg ws j =
        arg 2 (j - (NU_NAVI_TEST + NXI_NAVI_TEST))) ∧
    (NU_NAVI_TEST + NXI_NAVI_TEST + NP_NAVI_TEST ≤ j →
      copy_args_into_uxip_space arg ws j = ws j) :=
  ⟨rfl, rfl, rfl,
   fun h => full_pack_u arg ws h,
   fun h1 h2 => full_pack_xi arg ws h1 h2,
   fun h1 h2 => full_pack_p arg ws h1 h2,
   fun h => full_pack_frame arg ws h⟩

/-- Witness for C1 at concrete inputs: one index in each of the four
regions of the packed workspace. -/
theorem claim_C1_full_pack_correct_witness :
    copy_args_into_uxip_space wArg3 wWs 39 = 39 ∧
    copy_args_into_uxip_space wArg3 wWs 40 = 10000 ∧
    copy_args_into_uxip_space wArg3 wWs 81 = 20000 ∧
    copy_args_into_uxip_space wArg3 wWs 2754 = -2754 := by
  have h39 := claim_C1_full_pack_correct wArg3 wWs 39
  have h40 := claim_C1_full_pack_correct wArg3 wWs 40
  have h81 := claim_C1_full_pack_correct wArg3 wWs 81
  have hout := claim_C1_full_pack_correct wArg3 wWs 2754
  refine ⟨(h39.2.2.2.1 (by decide)).trans (by norm_num [wArg3]),
    (h40.2.2.2.2.1 (by decide) (by decide)).trans (by norm_num [wArg3, NU_NAVI_TEST]),
    (h81.2.2.2.2.2.1 (by decide) (by decide)).trans
      (by norm_num [wArg3, NU_NAVI_TEST, NXI_NAVI_TEST]),
    (hout.2.2.2.2.2.2 (by decide)).trans (by norm_num [wWs])⟩

/-- C2: for every `u` of length `Nu` and `p` of length `Np`, and every prior
workspace content, `copy_args_into_up_space({u, p})` writes `u` into
`[0, Nu)` and `p` into `[Nu+Nxi, Nu+Nxi+Np)` and leaves every element of the
`xi` region `[Nu, Nu+Nxi)` (and everything past the `p` region) exactly as
it was before the call. -/
theorem claim_C2_reduced_pack_frame (arg : Fin 2 → Nat → α) (ws : Nat → α)
    (j : Nat) :
    (j < NU_NAVI_TEST → copy_args_into_up_space arg ws j = arg 0 j) ∧
    (NU_NAVI_TEST ≤ j → j < NU_NAVI_TEST + NXI_NAVI_TEST →
      copy_args_into_up_space arg ws j = ws j) ∧
    (NU_NAVI_TEST + NXI_NAVI_TEST ≤ j →
      j < NU_NAVI_TEST + NXI_NAVI_TEST + NP_NAVI_TEST →
      copy_args_into_up_space arg ws j =
        arg 1 (j - (NU_NAVI_TEST + NXI_NAVI_TEST))) ∧
    (NU_NAVI_TEST + NXI_NAVI_TEST + NP_NAVI_TEST ≤ j →
      copy_args_into_up_space arg ws j = ws j) :=
  ⟨fun h => up_pack_u arg ws h,
   fun h1 h2 => up_pack_xi arg ws h1 h2,
   fun h1 h2 => up_pack_p arg ws h1 h2,
   fun h => up_pack_frame arg ws h⟩

/-- Witness for C2 at concrete inputs: one index per region; index 50 lies
in the `xi` region and keeps its prior value `-50`. -/
theorem claim_C2_reduced_pack_frame_witness :
    copy_args_into_up_space wArg2 wWs 39 = 39 ∧
    copy_args_into_up_space wArg2 wWs 50 = -50 ∧
    copy_args_into_up_space wArg2 wWs 81 = 10000 ∧
    copy_args_into_up_space wArg2 wWs 2754 = -2754 := by
  have h39 := claim_C2_reduced_pack_frame wArg2 wWs 39
  have h50 := claim_C2_reduced_pack_frame wArg2 wWs 50
  have h81 := claim_C2_reduced_pack_frame wArg2 wWs 81
  have hout := claim_C2_reduced_pack_frame wArg2 wWs 2754
  refine ⟨(h39.1 (by decide)).trans (by norm_num [wArg2]),
    (h50.2.1 (by decide) (by decide)).trans (by norm_num [wWs]),
    (h81.2.2.1 (by decide) (by decide)).trans
      (by norm_num [wArg2, NU_NAVI_TEST, NXI_NAVI_TEST]),
    (hout.2.2.2 (by decide)).trans (by norm_num [wWs])⟩

/-- Concrete three-argument kernel for witnesses: constant output `3`,
constant status `7`, scratch left unchanged. -/
def wKernel3 : Kernel3 Int :=
  ⟨fun _ _ _ _ => ⟨fun _ => 3, 7⟩, fun _ _ _ si => si, fun _ _ _ sr => sr⟩

/-- Concrete two-argument kernel for witnesses: constant output `4`,
constant (non-zero, negative) status `-5`, scratch left unchanged. -/
def wKernel2 : Kernel2 Int :=
  ⟨fun _ _ _ => ⟨fun _ => 4, -5⟩, fun _ _ si => si, fun _ _ sr => sr⟩

/-- Concrete interface state for witnesses: workspace `wWs`, zeroed scratch. -/
def wState : IState Int :=
  ⟨wWs, fun _ => 0, fun _ => 0, fun _ => 0, fun _ => 0,
    fun _ => 0, fun _ => 0, fun _ => 0, fun _ => 0⟩

/-- C3: whatever integer status `c` the invoked kernel returns — zero or
non-zero — each of the four dispatch functions returns exactly `c` to the
caller, with no interpretation, translation, or retry of the kernel's
status. The kernels `kc`, `kg`, `k1`, `k2` are arbitrary. -/
theorem claim_C3_status_propagation (kc kg : Kernel3 α) (k1 k2 : Kernel2 α)
    (arg3 : Fin 3 → Nat → α) (arg2 : Fin 2 → Nat → α) (s : IState α)
    (c : Int) :
    ((kc.eval (view (copy_args_into_uxip_space arg3 s.uxip_space) 0 NU_NAVI_TEST)
        (view (copy_args_into_uxip_space arg3 s.uxip_space) NU_NAVI_TEST NXI_NAVI_TEST)
        (view (copy_args_into_uxip_space arg3 s.uxip_space)
          (NU_NAVI_TEST + NXI_NAVI_TEST) NP_NAVI_TEST) none).status = c →
      (cost_function_navi_test kc arg3 s).2.status = c) ∧
    ((kg.eval (view (copy_args_into_uxip_space arg3 s.uxip_space) 0 NU_NAVI_TEST)
        (view (copy_args_into_uxip_space arg3 s.uxip_space) NU_NAVI_TEST NXI_NAVI_TEST)
        (view (copy_args_into_uxip_space arg3 s.uxip_space)
          (NU_NAVI_TEST + NXI_NAVI_TEST) NP_NAVI_TEST) none).status = c →
      (grad_cost_function_navi_test kg arg3 s).2.status = c) ∧
    ((k1.eval (view (copy_args_into_up_space arg2 s.uxip_space) 0 NU_NAVI_TEST)
        (view (copy_args_into_up_space arg2 s.uxip_space)
          (NU_NAVI_TEST + NXI_NAVI_TEST) NP_NAVI_TEST) none).status = c →
      (mapping_f1_function_navi_test k1 arg2 s).2.status = c) ∧
    ((k2.eval (view (copy_args_into_up_space arg2 s.uxip_space) 0 NU_NAVI_TEST)
        (view (copy_args_into_up_space arg2 s.uxip_space)
          (NU_NAVI_TEST + NXI_NAVI_TEST) NP_NAVI_TEST) none).status = c →
      (mapping_f2_function_navi_test k2 arg2 s).2.status = c) :=
  ⟨fun h => h, fun h => h, fun h => h, fun h => h⟩

/-- Witness for C3: with concrete kernels of status `7` (cost/grad) and
`-5` (the two mappings), each dispatch function returns that status. -/
theorem claim_C3_status_propagation_witness :
    (cost_function_navi_test wKernel3 wArg3 wState).2.status = 7 ∧
    (grad_cost_function_navi_test wKernel3 wArg3 wState).2.status = 7 ∧
    (mapping_f1_function_navi_test wKernel2 wArg2 wState).2.status = -5 ∧
    (mapping_f2_function_navi_test wKernel2 wArg2 wState).2.status = -5 := by
  have h7 := claim_C3_status_propagation wKernel3 wKernel3 wKernel2 wKernel2
    wArg3 wArg2 wState 7
  have h5 := claim_C3_status_propagation wKernel3 wKernel3 wKernel2 wKernel2
    wArg3 wArg2 wState (-5)
  exact ⟨h7.1 rfl, h7.2.1 rfl, h5.2.2.1 rfl, h5.2.2.2 rfl⟩

/-- C5: on every call, the kernel is invoked on the argument view made of
base pointers at the fixed offsets into the packed workspace: cost and
gradient on the three-element view `{ws+0, ws+Nu, ws+Nu+Nxi}` (the `u`,
`xi`, `p` regions, in that order), mapping F1 and F2 on the two-element
view `{ws+0, ws+Nu+Nxi}` (the `u` and `p` regions); the offsets are
`0`, `Nu = 40` and `Nu+Nxi = 81`. -/
theorem claim_C5_argument_views (kc kg : Kernel3 α) (k1 k2 : Kernel2 α)
    (arg3 : Fin 3 → Nat → α) (arg2 : Fin 2 → Nat → α) (s : IState α) :
    NU_NAVI_TEST = 40 ∧ NU_NAVI_TEST + NXI_NAVI_TEST = 81 ∧
    (cost_function_navi_test kc arg3 s).2 =
      kc.eval (view (copy_args_into_uxip_space arg3 s.uxip_space) 0 NU_NAVI_TEST)
        (view (copy_args_into_uxip_space arg3 s.uxip_space) NU_NAVI_TEST NXI_NAVI_TEST)
        (view (copy_args_into_uxip_space arg3 s.uxip_space)
          (NU_NAVI_TEST + NXI_NAVI_TEST) NP_NAVI_TEST) none ∧
    (grad_cost_function_navi_test kg arg3 s).2 =
      kg.eval (view (copy_args_into_uxip_space arg3 s.uxip_space) 0 NU_NAVI_TEST)
        (view (copy_args_into_uxip_space arg3 s.uxip_space) NU_NAVI_TEST NXI_NAVI_TEST)
        (view (copy_args_into_uxip_space arg3 s.uxip_space)
          (NU_NAVI_TEST + NXI_NAVI_TEST) NP_NAVI_TEST) none ∧
    (mapping_f1_function_navi_test k1 arg2 s).2 =
      k1.eval (view (copy_args_into_up_space arg2 s.uxip_space) 0 NU_NAVI_TEST)
        (view (copy_args_into_up_space arg2 s.uxip_space)
          (NU_NAVI_TEST + NXI_NAVI_TEST) NP_NAVI_TEST) none ∧
    (mapping_f2_function_navi_test k2 arg2 s).2 =
      k2.eval (view (copy_args_into_up_space arg2 s.uxip_space) 0 NU_NAVI_TEST)
        (view (copy_args_into_up_space arg2 s.uxip_space)
          (NU_NAVI_TEST + NXI_NAVI_TEST) NP_NAVI_TEST) none :=
  ⟨rfl, rfl, rfl, rfl, rfl, rfl⟩

/-- C6: each dispatch call is exactly the pipeline pack → view-bind →
result-bind → invoke → return status: the call equals the pair of (its
prior state with only the packed workspace and its own kernel's two scratch
arenas replaced) and (the kernel's return, evaluated on the views of the
freshly packed workspace and handed to the caller's output buffer without
copying). No other component of the interface state changes, so no
cross-call state is carried beyond the packed workspace and scratch
arenas. -/
theorem claim_C6_dispatch_pipeline (kc kg : Kernel3 α) (k1 k2 : Kernel2 α)
    (arg3 : Fin 3 → Nat → α) (arg2 : Fin 2 → Nat → α) (s : IState α) :
    cost_function_navi_test kc arg3 s =
      ({ s with
          uxip_space := copy_args_into_uxip_space arg3 s.uxip_space,
          iw_cost := kc.scrI
            (view (copy_args_into_uxip_space arg3 s.uxip_space) 0 NU_NAVI_TEST)
            (view (copy_args_into_uxip_space arg3 s.uxip_space) NU_NAVI_TEST NXI_NAVI_TEST)
            (view (copy_args_into_uxip_space arg3 s.uxip_space)
              (NU_NAVI_TEST + NXI_NAVI_TEST) NP_NAVI_TEST) s.iw_cost,
          w_cost := kc.scrR
            (view (copy_args_into_uxip_space arg3 s.uxip_space) 0 NU_NAVI_TEST)
            (view (copy_args_into_uxip_space arg3 s.uxip_space) NU_NAVI_TEST NXI_NAVI_TEST)
            (view (copy_args_into_uxip_space arg3 s.uxip_space)
              (NU_NAVI_TEST + NXI_NAVI_TEST) NP_NAVI_TEST) s.w_cost },
       kc.eval
         (view (copy_args_into_uxip_space arg3 s.uxip_space) 0 NU_NAVI_TEST)
         (view (copy_args_into_uxip_space arg3 s.uxip_space) NU_NAVI_TEST NXI_NAVI_TEST)
         (view (copy_args_into_uxip_space arg3 s.uxip_space)
           (NU_NAVI_TEST + NXI_NAVI_TEST) NP_NAVI_TEST) none) ∧
    grad_cost_function_navi_test kg arg3 s =
      ({ s with
          uxip_space := copy_args_into_uxip_space arg3 s.uxip_space,
          iw_grad := kg.scrI
            (view (copy_args_into_uxip_space arg3 s.uxip_space) 0 NU_NAVI_TEST)
            (view (copy_args_into_uxip_space arg3 s.uxip_space) NU_NAVI_TEST NXI_NAVI_TEST)
            (view (copy_args_into_uxip_space arg3 s.uxip_space)
              (NU_NAVI_TEST + NXI_NAVI_TEST) NP_NAVI_TEST) s.iw_grad,
          w_grad := kg.scrR
            (view (copy_args_into_uxip_space arg3 s.uxip_space) 0 NU_NAVI_TEST)
            (view (copy_args_into_uxip_space arg3 s.uxip_space) NU_NAVI_TEST NXI_NAVI_TEST)
            (view (copy_args_into_uxip_space arg3 s.uxip_space)
              (NU_NAVI_TEST + NXI_NAVI_TEST) NP_NAVI_TEST) s.w_grad },
       kg.eval
         (view (copy_args_into_uxip_space arg3 s.uxip_space) 0 NU_NAVI_TEST)
         (view (copy_args_into_uxip_space arg3 s.uxip_space) NU_NAVI_TEST NXI_NAVI_TEST)
         (view (copy_args_into_uxip_space arg3 s.uxip_space)
           (NU_NAVI_TEST + NXI_NAVI_TEST) NP_NAVI_TEST) none) ∧
    mapping_f1_function_navi_test k1 arg2 s =
      ({ s with
          uxip_space := copy_args_into_up_space arg2 s.uxip_space,
          iw_f1 := k1.scrI
            (view (copy_args_into_up_space arg2 s.uxip_space) 0 NU_NAVI_TEST)
            (view (copy_args_into_up_space arg2 s.uxip_space)
              (NU_NAVI_TEST + NXI_NAVI_TEST) NP_NAVI_TEST) s.iw_f1,
          w_f1 := k1.scrR
            (view (copy_args_into_up_space arg2 s.uxip_space) 0 NU_NAVI_TEST)
            (view (copy_args_into_up_space arg2 s.uxip_space)
              (NU_NAVI_TEST + NXI_NAVI_TEST) NP_NAVI_TEST) s.w_f1 },
       k1.eval
         (view (copy_args_into_up_space arg2 s.uxip_space) 0 NU_NAVI_TEST)
         (view (copy_args_into_up_space arg2 s.uxip_space)
           (NU_NAVI_TEST + NXI_NAVI_TEST) NP_NAVI_TEST) none) ∧
    mapping_f2_function_navi_test k2 arg2 s =
      ({ s with
          uxip_space := copy_args_into_up_space arg2 s.uxip_space,
          iw_f2 := k2.scrI
            (view (copy_args_into_up_space arg2 s.uxip_space) 0 NU_NAVI_TEST)
            (view (copy_args_into_up_space arg2 s.uxip_space)
              (NU_NAVI_TEST + NXI_NAVI_TEST) NP_NAVI_TEST) s.iw_f2,
          w_f2 := k2.scrR
            (view (copy_args_into_up_space arg2 s.uxip_space) 0 NU_NAVI_TEST)
            (view (copy_args_into_up_space arg2 s.uxip_space)
              (NU_NAVI_TEST + NXI_NAVI_TEST) NP_NAVI_TEST) s.w_f2 },
       k2.eval
         (view (copy_args_into_up_space arg2 s.uxip_space) 0 NU_NAVI_TEST)
         (view (copy_args_into_up_space arg2 s.uxip_space)
           (NU_NAVI_TEST + NXI_NAVI_TEST) NP_NAVI_TEST) none) :=
  ⟨rfl, rfl, rfl, rfl⟩

theorem full_views_eq (arg : Fin 3 → Nat → α) (ws1 ws2 : Nat → α) :
    view (copy_args_into_uxip_space arg ws1) 0 NU_NAVI_TEST =
      view (copy_args_into_uxip_space arg ws2) 0 NU_NAVI_TEST ∧
    view (copy_args_into_uxip_space arg ws1) NU_NAVI_TEST NXI_NAVI_TEST =
      view (copy_args_into_uxip_space arg ws2) NU_NAVI_TEST NXI_NAVI_TEST ∧
    view (copy_args_into_uxip_space arg ws1)
        (NU_NAVI_TEST + NXI_NAVI_TEST) NP_NAVI_TEST =
      view (copy_args_into_uxip_space arg ws2)
        (NU_NAVI_TEST + NXI_NAVI_TEST) NP_NAVI_TEST := by
  refine ⟨funext fun i => ?_, funext fun i => ?_, funext fun i => ?_⟩
  · show copy_args_into_uxip_space arg ws1 (0 + i.1) =
      copy_args_into_uxip_space arg ws2 (0 + i.1)
    rw [full_pack_u arg ws1 (by have := i.isLt; omega),
      full_pack_u arg ws2 (by have := i.isLt; omega)]
  · show copy_args_into_uxip_space arg ws1 (NU_NAVI_TEST + i.1) =
      copy_args_into_uxip_space arg ws2 (NU_NAVI_TEST + i.1)
    rw [full_pack_xi arg ws1 (by omega) (by have := i.isLt; omega),
      full_pack_xi arg ws2 (by omega) (by have := i.isLt; omega)]
  · show copy_args_into_uxip_space arg ws1 ((NU_NAVI_TEST + NXI_NAVI_TEST) + i.1) =
      copy_args_into_uxip_space arg ws2 ((NU_NAVI_TEST + NXI_NAVI_TEST) + i.1)
    rw [full_pack_p arg ws1 (by omega) (by have := i.isLt; omega),
      full_pack_p arg ws2 (by omega) (by have := i.isLt; omega)]

theorem up_views_eq (arg : Fin 2 → Nat → α) (ws1 ws2 : Nat → α) :
    view (copy_args_into_up_space arg ws1) 0 NU_NAVI_TEST =
      view (copy_args_into_up_space arg ws2) 0 NU_NAVI_TEST ∧
    view (copy_args_into_up_space arg ws1)
        (NU_NAVI_TEST + NXI_NAVI_TEST) NP_NAVI_TEST =
      view (copy_args_into_up_space arg ws2)
        (NU_NAVI_TEST + NXI_NAVI_TEST) NP_NAVI_TEST := by
  refine ⟨funext fun i => ?_, funext fun i => ?_⟩
  · show copy_args_into_up_space arg ws1 (0 + i.1) =
      copy_args_into_up_space arg ws2 (0 + i.1)
    rw [up_pack_u arg ws1 (by have := i.isLt; omega),
      up_pack_u arg ws2 (by have := i.isLt; omega)]
  · show copy_args_into_up_space arg ws1 ((NU_NAVI_TEST + NXI_NAVI_TEST) + i.1) =
      copy_args_into_up_space arg ws2 ((NU_NAVI_TEST + NXI_NAVI_TEST) + i.1)
    rw [up_pack_p arg ws1 (by omega) (by have := i.isLt; omega),
      up_pack_p arg ws2 (by omega) (by have := i.isLt; omega)]

/-- The cost dispatch hands the caller a return that depends on the prior
interface state only through the freshly packed argument regions, which the
full pack determines from `arg` alone. -/
theorem cost_return_congr (k : Kernel3 α) (arg : Fin 3 → Nat → α)
    (s t : IState α) :
    (cost_function_navi_test k arg s).2 = (cost_function_navi_test k arg t).2 := by
  have e := full_views_eq arg s.uxip_space t.uxip_space
  show k.eval _ _ _ none = k.eval _ _ _ none
  rw [e.1, e.2.1, e.2.2]

theorem grad_return_congr (k : Kernel3 α) (arg : Fin 3 → Nat → α)
    (s t : IState α) :
    (grad_cost_function_navi_test k arg s).2 =
      (grad_cost_function_navi_test k arg t).2 := by
  have e := full_views_eq arg s.uxip_space t.uxip_space
  show k.eval _ _ _ none = k.eval _ _ _ none
  rw [e.1, e.2.1, e.2.2]

theorem f1_return_congr (k : Kernel2 α) (arg : Fin 2 → Nat → α)
    (s t : IState α) :
    (mapping_f1_function_navi_test k arg s).2 =
      (mapping_f1_function_navi_test k arg t).2 := by
  have e := up_views_eq arg s.uxip_space t.uxip_space
  show k.eval _ _ none = k.eval _ _ none
  rw [e.1, e.2]

theorem f2_return_congr (k : Kernel2 α) (arg : Fin 2 → Nat → α)
    (s t : IState α) :
    (mapping_f2_function_navi_test k arg s).2 =
      (mapping_f2_function_navi_test k arg t).2 := by
  have e := up_views_eq arg s.uxip_space t.uxip_space
  show k.eval _ _ none = k.eval _ _ none
  rw [e.1, e.2]

/-- Interface state whose workspace holds poison values in the `xi` region
`[40, 81)` and agrees with `wState` elsewhere. -/
def wStatePoison : IState Int :=
  { wState with uxip_space := fun j => if 40 ≤ j ∧ j < 81 then 999 else wWs j }

/-- C4: the result handed back by `mapping_f1_function_navi_test` and by
`mapping_f2_function_navi_test` — output-buffer contents and return code —
is independent of the prior contents of the `xi` region of the packed
workspace: two runs on the same `(u, p)` whose prior workspaces agree
outside `[Nu, Nu+Nxi)` but hold arbitrarily different values inside it
produce equal kernel returns. -/
theorem claim_C4_mapping_xi_independence (k1 k2 : Kernel2 α)
    (arg : Fin 2 → Nat → α) (s t : IState α)
    (h : ∀ j, j < NU_NAVI_TEST ∨ NU_NAVI_TEST + NXI_NAVI_TEST ≤ j →
      s.uxip_space j = t.uxip_space j) :
    (mapping_f1_function_navi_test k1 arg s).2 =
      (mapping_f1_function_navi_test k1 arg t).2 ∧
    (mapping_f2_function_navi_test k2 arg s).2 =
      (mapping_f2_function_navi_test k2 arg t).2 :=
  ⟨f1_return_congr k1 arg s t, f2_return_congr k2 arg s t⟩

/-- Witness for C4: poisoning the `xi` region between two calls on the same
`(u, p)` leaves both mapping results unchanged. -/
theorem claim_C4_mapping_xi_independence_witness :
    (mapping_f1_function_navi_test wKernel2 wArg2 wState).2 =
      (mapping_f1_function_navi_test wKernel2 wArg2 wStatePoison).2 ∧
    (mapping_f2_function_navi_test wKernel2 wArg2 wState).2 =
      (mapping_f2_function_navi_test wKernel2 wArg2 wStatePoison).2 := by
  refine claim_C4_mapping_xi_independence wKernel2 wKernel2 wArg2 wState
    wStatePoison (fun j hj => ?_)
  show wWs j = (if 40 ≤ j ∧ j < 81 then (999 : Int) else wWs j)
  have hn : ¬(40 ≤ j ∧ j < 81) := by
    have h40 : NU_NAVI_TEST = 40 := rfl
    have h81 : NU_NAVI_TEST + NXI_NAVI_TEST = 81 := rfl
    rw [h81] at hj
    rw [h40] at hj
    omega
  rw [if_neg hn]

/-- C7: the packed workspace is sized to the larger, reserved parameter
count: `NP_NAVI_TEST = 2673` while the metadata header declares 2658
parameters, `uxip_space` has exactly `NU + NXI + NP = 40 + 41 + 2673 = 2754`
elements, and both copy routines copy all `Np = 2673` reserved parameter
elements from the caller's `p` vector. -/
theorem claim_C7_reserved_sizing :
    NP_NAVI_TEST = 2673 ∧ metadata_parameters = 2658 ∧
    NP_NAVI_TEST ≠ metadata_parameters ∧
    UXIP_SPACE_SIZE = NU_NAVI_TEST + NXI_NAVI_TEST + NP_NAVI_TEST ∧
    UXIP_SPACE_SIZE = 2754 ∧
    (∀ (arg : Fin 3 → Nat → α) (ws : Nat → α) (j : Nat), j < NP_NAVI_TEST →
      copy_args_into_uxip_space arg ws (NU_NAVI_TEST + NXI_NAVI_TEST + j) =
        arg 2 j) ∧
    (∀ (arg : Fin 2 → Nat → α) (ws : Nat → α) (j : Nat), j < NP_NAVI_TEST →
      copy_args_into_up_space arg ws (NU_NAVI_TEST + NXI_NAVI_TEST + j) =
        arg 1 j) := by
  refine ⟨rfl, rfl, by decide, rfl, rfl, ?_, ?_⟩
  · intro arg ws j hj
    have h := @full_pack_p α (NU_NAVI_TEST + NXI_NAVI_TEST + j) arg ws
      (by omega) (by omega)
    have h2 : NU_NAVI_TEST + NXI_NAVI_TEST + j -
        (NU_NAVI_TEST + NXI_NAVI_TEST) = j := by omega
    rw [h2] at h
    exact h
  · intro arg ws j hj
    have h := @up_pack_p α (NU_NAVI_TEST + NXI_NAVI_TEST + j) arg ws
      (by omega) (by omega)
    have h2 : NU_NAVI_TEST + NXI_NAVI_TEST + j -
        (NU_NAVI_TEST + NXI_NAVI_TEST) = j := by omega
    rw [h2] at h
    exact h

/-- Witness for C7: the last reserved parameter element (index 2672) is
copied by both routines. -/
theorem claim_C7_reserved_sizing_witness :
    copy_args_into_uxip_space wArg3 wWs (81 + 2672) = 22672 ∧
    copy_args_into_up_space wArg2 wWs (81 + 2672) = 12672 := by
  have h := @claim_C7_reserved_sizing Int
  constructor
  · exact (h.2.2.2.2.2.1 wArg3 wWs 2672 (by decide)).trans (by norm_num [wArg3])
  · exact (h.2.2.2.2.2.2 wArg2 wWs 2672 (by decide)).trans (by norm_num [wArg2])

/-- C8: calling the same dispatch function twice in succession with
identical input vectors yields identical kernel returns — equal
output-buffer contents and equal return codes; the dispatch layer carries
no state that changes the result of a repeated identical call. -/
theorem claim_C8_repeat_call_identical (kc kg : Kernel3 α) (k1 k2 : Kernel2 α)
    (arg3 : Fin 3 → Nat → α) (arg2 : Fin 2 → Nat → α) (s : IState α) :
    (cost_function_navi_test kc arg3
        (cost_function_navi_test kc arg3 s).1).2 =
      (cost_function_navi_test kc arg3 s).2 ∧
    (grad_cost_function_navi_test kg arg3
        (grad_cost_function_navi_test kg arg3 s).1).2 =
      (grad_cost_function_navi_test kg arg3 s).2 ∧
    (mapping_f1_function_navi_test k1 arg2
        (mapping_f1_function_navi_test k1 arg2 s).1).2 =
      (mapping_f1_function_navi_test k1 arg2 s).2 ∧
    (mapping_f2_function_navi_test k2 arg2
        (mapping_f2_function_navi_test k2 arg2 s).1).2 =
      (mapping_f2_function_navi_test k2 arg2 s).2 :=
  ⟨cost_return_congr kc arg3 _ s, grad_return_congr kg arg3 _ s,
   f1_return_congr k1 arg2 _ s, f2_return_congr k2 arg2 _ s⟩

theorem allocated_workspace_none_iff (z : α) (sz : Nat) :
    allocated_workspace z sz = none ↔ sz = 0 := by
  unfold allocated_workspace
  split <;> rename_i hsz <;> simp <;> omega

/-- Interface state agreeing with `wState` on the workspace but with
corrupted scratch arenas for every kernel. -/
def wStateScr : IState Int :=
  { wState with
      iw_cost := fun _ => 11, w_cost := fun _ => 12,
      iw_grad := fun _ => 13, w_grad := fun _ => 14,
      iw_f1 := fun _ => 15, w_f1 := fun _ => 16,
      iw_f2 := fun _ => 17, w_f2 := fun _ => 18 }

set_option maxRecDepth 8000 in
set_option maxHeartbeats 2000000 in
/-- C9: scratch-arena discipline. First, the conditional allocation pattern
yields a null arena exactly when the declared size is zero. Second, every
dispatch invokes its kernel with a null auxiliary-memory handle. Third,
each dispatch's result is unchanged when every scratch arena is replaced
(workspace held fixed), so scratch contents of one kernel never influence
another kernel's invocation. Fourth, each dispatch leaves the other three
kernels' dedicated arenas untouched — the four arena pairs are distinct
state components, never shared. -/
theorem claim_C9_scratch_isolation (kc kg : Kernel3 α) (k1 k2 : Kernel2 α)
    (arg3 : Fin 3 → Nat → α) (arg2 : Fin 2 → Nat → α) (s t : IState α)
    (h : s.uxip_space = t.uxip_space) :
    (∀ (z : α) (sz : Nat), allocated_workspace z sz = none ↔ sz = 0) ∧
    ((cost_function_navi_test kc arg3 s).2 =
        kc.eval (view (copy_args_into_uxip_space arg3 s.uxip_space) 0 NU_NAVI_TEST)
          (view (copy_args_into_uxip_space arg3 s.uxip_space) NU_NAVI_TEST NXI_NAVI_TEST)
          (view (copy_args_into_uxip_space arg3 s.uxip_space)
            (NU_NAVI_TEST + NXI_NAVI_TEST) NP_NAVI_TEST) none ∧
      (grad_cost_function_navi_test kg arg3 s).2 =
        kg.eval (view (copy_args_into_uxip_space arg3 s.uxip_space) 0 NU_NAVI_TEST)
          (view (copy_args_into_uxip_space arg3 s.uxip_space) NU_NAVI_TEST NXI_NAVI_TEST)
          (view (copy_args_into_uxip_space arg3 s.uxip_space)
            (NU_NAVI_TEST + NXI_NAVI_TEST) NP_NAVI_TEST) none ∧
      (mapping_f1_function_navi_test k1 arg2 s).2 =
        k1.eval (view (copy_args_into_up_space arg2 s.uxip_space) 0 NU_NAVI_TEST)
          (view (copy_args_into_up_space arg2 s.uxip_space)
            (NU_NAVI_TEST + NXI_NAVI_TEST) NP_NAVI_TEST) none ∧
      (mapping_f2_function_navi_test k2 arg2 s).2 =
        k2.eval (view (copy_args_into_up_space arg2 s.uxip_space) 0 NU_NAVI_TEST)
          (view (copy_args_into_up_space arg2 s.uxip_space)
            (NU_NAVI_TEST + NXI_NAVI_TEST) NP_NAVI_TEST) none) ∧
    ((cost_function_navi_test kc arg3 s).2 =
        (cost_function_navi_test kc arg3 t).2 ∧
      (grad_cost_function_navi_test kg arg3 s).2 =
        (grad_cost_function_navi_test kg arg3 t).2 ∧
      (mapping_f1_function_navi_test k1 arg2 s).2 =
        (mapping_f1_function_navi_test k1 arg2 t).2 ∧
      (mapping_f2_function_navi_test k2 arg2 s).2 =
        (mapping_f2_function_navi_test k2 arg2 t).2) ∧
    ((cost_function_navi_test kc arg3 s).1.iw_grad = s.iw_grad ∧
      (cost_function_navi_test kc arg3 s).1.w_grad = s.w_grad ∧
      (cost_function_navi_test kc arg3 s).1.iw_f1 = s.iw_f1 ∧
      (cost_function_navi_test kc arg3 s).1.w_f1 = s.w_f1 ∧
      (cost_function_navi_test kc arg3 s).1.iw_f2 = s.iw_f2 ∧
      (cost_function_navi_test kc arg3 s).1.w_f2 = s.w_f2) ∧
    ((grad_cost_function_navi_test kg arg3 s).1.iw_cost = s.iw_cost ∧
      (grad_cost_function_navi_test kg arg3 s).1.w_cost = s.w_cost ∧
      (grad_cost_function_navi_test kg arg3 s).1.iw_f1 = s.iw_f1 ∧
      (grad_cost_function_navi_test kg arg3 s).1.w_f1 = s.w_f1 ∧
      (grad_cost_function_navi_test kg arg3 s).1.iw_f2 = s.iw_f2 ∧
      (grad_cost_function_navi_test kg arg3 s).1.w_f2 = s.w_f2) ∧
    ((mapping_f1_function_navi_test k1 arg2 s).1.iw_cost = s.iw_cost ∧
      (mapping_f1_function_navi_test k1 arg2 s).1.w_cost = s.w_cost ∧
      (mapping_f1_function_navi_test k1 arg2 s).1.iw_grad = s.iw_grad ∧
      (mapping_f1_function_navi_test k1 arg2 s).1.w_grad = s.w_grad ∧
      (mapping_f1_function_navi_test k1 arg2 s).1.iw_f2 = s.iw_f2 ∧
      (mapping_f1_function_navi_test k1 arg2 s).1.w_f2 = s.w_f2) ∧
    ((mapping_f2_function_navi_test k2 arg2 s).1.iw_cost = s.iw_cost ∧
      (mapping_f2_function_navi_test k2 arg2 s).1.w_cost = s.w_cost ∧
      (mapping_f2_function_navi_test k2 arg2 s).1.iw_grad = s.iw_grad ∧
      (mapping_f2_function_navi_test k2 arg2 s).1.w_grad = s.w_grad ∧
      (mapping_f2_function_navi_test k2 arg2 s).1.iw_f1 = s.iw_f1 ∧
      (mapping_f2_function_navi_test k2 arg2 s).1.w_f1 = s.w_f1) := by
  refine ⟨fun z sz => allocated_workspace_none_iff z sz,
    ⟨rfl, rfl, rfl, rfl⟩,
    ⟨cost_return_congr kc arg3 s t, grad_return_congr kg arg3 s t,
      f1_return_congr k1 arg2 s t, f2_return_congr k2 arg2 s t⟩,
    ⟨rfl, rfl, rfl, rfl, rfl, rfl⟩,
    ⟨rfl, rfl, rfl, rfl, rfl, rfl⟩,
    ⟨rfl, rfl, rfl, rfl, rfl, rfl⟩,
    ⟨rfl, rfl, rfl, rfl, rfl, rfl⟩⟩

/-- Witness for C9 at concrete inputs: a zero-size arena is null, a
mapping's result survives corruption of all scratch arenas, and a cost call
leaves the F1 arena untouched. -/
theorem claim_C9_scratch_isolation_witness :
    allocated_workspace (0 : Int) 0 = none ∧
    (mapping_f1_function_navi_test wKernel2 wArg2 wState).2 =
      (mapping_f1_function_navi_test wKernel2 wArg2 wStateScr).2 ∧
    (cost_function_navi_test wKernel3 wArg3 wState).1.iw_f1 =
      wState.iw_f1 := by
  have h := claim_C9_scratch_isolation wKernel3 wKernel3 wKernel2 wKernel2
    wArg3 wArg2 wState wStateScr rfl
  exact ⟨(h.1 0 0).2 rfl, h.2.2.1.2.2.1, h.2.2.2.1.2.2.1⟩

/-- Concrete caller argument base pointers and flat memory for the
heap-level witness; the workspace sits at base 10000, far from them. -/
def wPtr3 : Fin 3 → Nat := fun k => k.1 * 100

/-- Concrete caller argument base pointers for the reduced routine. -/
def wPtr2 : Fin 2 → Nat := fun k => k.1 * 100

/-- Concrete flat memory holding its own address at every cell. -/
def wMem : Nat → Int := fun a => (a : Int)

/-- C10: the copy routines write only into the packed workspace: at the
level of a flat memory, every address outside the workspace region
`[base, base + 2754)` — in particular every element of the caller-supplied
`u`, `xi` and `p` buffers, which are distinct objects from the workspace —
holds exactly its prior value after either routine runs, for every call of
any of the four dispatch functions (whose only writes to shared memory go
through these routines). -/
theorem claim_C10_caller_inputs_preserved (base : Nat) (argp3 : Fin 3 → Nat)
    (argp2 : Fin 2 → Nat) (mem3 mem2 : Nat → α) (a : Nat)
    (h : a < base ∨ base + UXIP_SPACE_SIZE ≤ a) :
    copy_args_into_uxip_space_heap base argp3 mem3 a = mem3 a ∧
    copy_args_into_up_space_heap base argp2 mem2 a = mem2 a := by
  have hsz : UXIP_SPACE_SIZE =
      NU_NAVI_TEST + NXI_NAVI_TEST + NP_NAVI_TEST := rfl
  rw [hsz] at h
  constructor
  · unfold copy_args_into_uxip_space_heap
    rw [heap_copy_loop_outside _ _ (by omega),
      heap_copy_loop_outside _ _ (by omega),
      heap_copy_loop_outside _ _ (by omega)]
  · unfold copy_args_into_up_space_heap
    rw [heap_copy_loop_outside _ _ (by omega),
      heap_copy_loop_outside _ _ (by omega)]

/-- Witness for C10: an address just below the workspace base keeps its
value through both heap-level copy routines. -/
theorem claim_C10_caller_inputs_preserved_witness :
    copy_args_into_uxip_space_heap 10000 wPtr3 wMem 9999 = 9999 ∧
    copy_args_into_up_space_heap 10000 wPtr2 wMem 9999 = 9999 := by
  have h := claim_C10_caller_inputs_preserved 10000 wPtr3 wPtr2 wMem wMem 9999
    (Or.inl (by decide))
  exact ⟨h.1.trans (by norm_num [wMem]), h.2.trans (by norm_num [wMem])⟩

end NaviTest
